import Mathlib

/-!
Verification of the `VideoGenerator.svelte` form controller of the
`koyeb_challenge` repository: a shallow embedding of its validation and
submission logic, with theorems checking the documented contract.

Modelling conventions:
* JavaScript integers (`width`, `height`, `numFrames`, `inferenceSteps`,
  `seed`) are `Int`; `guidanceScale` is `ℚ` (all values exercised by the
  code and its spec are exact decimals, so rationals model the comparisons
  `< 0` faithfully).
* The JavaScript remainder operator `%` truncates toward zero, which is
  `Int.tmod`; the code only compares remainders to `0`, where `tmod` and
  the mathematical divisibility agree.
* `import.meta.env.VITE_BACKEND_URL` is `Option String` (`none` =
  undefined); the guard `!backendUrl` is JavaScript falsiness, true for
  both `none` and the empty string.
* The `fetch` round trip and the `FileReader` are the environment: a
  `SubmitEnv` records the configured URL, whether the file read succeeds,
  and the network outcome.  `JSON.parse` / `response.json ()` is modelled
  by an executable JSON parser `parseJson` over the response text.
-/

namespace VideoGen

/-- JSON values, with object fields kept in insertion order as a
JavaScript object literal does. -/
inductive Json where
  | jnull : Json
  | jbool : Bool → Json
  | jnum : ℚ → Json
  | jstr : String → Json
  | jarr : List Json → Json
  | jobj : List (String × Json) → Json
deriving Inhabited

/-- Field lookup on a JSON value: `j.detail`-style property access.
On a non-object it yields `none` (JavaScript `undefined`). -/
def Json.getField (j : Json) (key : String) : Option Json :=
  match j with
  | .jobj fields => fields.lookup key
  | _ => none

/-- Whether a JSON object value carries the given key. -/
def Json.hasField (j : Json) (key : String) : Bool :=
  (j.getField key).isSome

/-- The input-method radio selection of the form. -/
inductive InputMethod where
  | url : InputMethod
  | file : InputMethod
deriving DecidableEq, Inhabited

/-- The component-level state of `VideoGenerator.svelte` — one field per
`let` binding of the script block.  `imageFile` holds the data-URL string
that a successful `FileReader.readAsDataURL` of the chosen file would
produce (`none` = no file chosen). -/
structure FormState where
  prompt : String
  imageUrl : String
  imageFile : Option String
  seed : Option Int
  inferenceSteps : Int
  guidanceScale : ℚ
  width : Int
  height : Int
  numFrames : Int
  loading : Bool
  result : Option Json
  error : Option String
  inputMethod : InputMethod
deriving Inhabited

/-- `validateDimensions`: returns the message of the first failing check,
`none` when every check passes.  Mirrors the four `if`/`throw` guards of
the source in order. -/
def validateDimensions (s : FormState) : Option String :=
  if Int.tmod s.width 32 ≠ 0 ∨ Int.tmod s.height 32 ≠ 0 then
    some "Width and height must be divisible by 32"
  else if Int.tmod (s.numFrames - 1) 8 ≠ 0 then
    some "Number of frames must be divisible by 8 plus 1"
  else if s.inferenceSteps < 1 then
    some "Inference steps must be positive"
  else if s.guidanceScale < 0 then
    some "Guidance scale must be non-negative"
  else
    none

/-! ### A model of `JSON.parse`

`handleSubmit` calls `JSON.parse` on the error body (line 92) and
`response.json ()` on the success body (line 100).  `parseJson` below is
an executable recursive-descent parser for the JSON grammar (objects,
arrays, strings with escapes, numbers, literals), with a fuel argument to
make the recursion evidently terminating. -/

/-- Skip JSON whitespace (space, tab, newline, carriage return). -/
def skipWs : List Char → List Char
  | c :: cs =>
    if c = ' ' ∨ c = '\t' ∨ c = '\n' ∨ c = '\r' then skipWs cs else c :: cs
  | [] => []

/-- Value of a hexadecimal digit. -/
def hexVal (c : Char) : Option Nat :=
  if '0' ≤ c ∧ c ≤ '9' then some (c.toNat - '0'.toNat)
  else if 'a' ≤ c ∧ c ≤ 'f' then some (c.toNat - 'a'.toNat + 10)
  else if 'A' ≤ c ∧ c ≤ 'F' then some (c.toNat - 'A'.toNat + 10)
  else none

/-- Value of a decimal digit. -/
def digitVal (c : Char) : Option Nat :=
  if '0' ≤ c ∧ c ≤ '9' then some (c.toNat - '0'.toNat) else none

/-- Take a maximal run of decimal digits. -/
def takeDigits : List Char → List Nat × List Char
  | [] => ([], [])
  | c :: cs =>
    match digitVal c with
    | some d => let (ds, r) := takeDigits cs; (d :: ds, r)
    | none => ([], c :: cs)

/-- Natural number denoted by a digit run. -/
def natOfDigits (ds : List Nat) : Nat :=
  ds.foldl (fun a d => a * 10 + d) 0

/-- Parse the body of a JSON string literal, after the opening quote, up
to and including the closing quote. -/
def parseStringBody : Nat → List Char → Option (String × List Char)
  | 0, _ => none
  | _, [] => none
  | fuel + 1, c :: cs =>
    if c = '"' then some ("", cs)
    else if c = '\\' then
      match cs with
      | [] => none
      | e :: cs' =>
        let esc : Option (Char × List Char) :=
          if e = '"' then some ('"', cs')
          else if e = '\\' then some ('\\', cs')
          else if e = '/' then some ('/', cs')
          else if e = 'n' then some ('\n', cs')
          else if e = 't' then some ('\t', cs')
          else if e = 'r' then some ('\r', cs')
          else if e = 'b' then some (Char.ofNat 8, cs')
          else if e = 'f' then some (Char.ofNat 12, cs')
          else if e = 'u' then
            match cs' with
            | a :: b :: c2 :: d :: rest =>
              match hexVal a, hexVal b, hexVal c2, hexVal d with
              | some ha, some hb, some hc, some hd =>
                some (Char.ofNat (((ha * 16 + hb) * 16 + hc) * 16 + hd), rest)
              | _, _, _, _ => none
            | _ => none
          else none
        match esc with
        | some (ch, rest) =>
          match parseStringBody fuel rest with
          | some (s, r) => some (⟨ch :: s.data⟩, r)
          | none => none
        | none => none
    else
      match parseStringBody fuel cs with
      | some (s, r) => some (⟨c :: s.data⟩, r)
      | none => none

/-- Parse an optional fraction part (`.` followed by digits). -/
def parseFrac : List Char → Option (ℚ × List Char)
  | '.' :: r =>
    match takeDigits r with
    | ([], _) => none
    | (ds, rest) => some ((natOfDigits ds : ℚ) / (10 : ℚ) ^ ds.length, rest)
  | cs => some (0, cs)

/-- Parse an optional exponent part (`e`/`E`, optional sign, digits). -/
def parseExp : List Char → Option (Int × List Char)
  | c :: r =>
    if c = 'e' ∨ c = 'E' then
      let (sgn, r1) : Int × List Char :=
        match r with
        | '+' :: rr => (1, rr)
        | '-' :: rr => (-1, rr)
        | _ => (1, r)
      match takeDigits r1 with
      | ([], _) => none
      | (ds, rest) => some (sgn * (natOfDigits ds : Int), rest)
    else some (0, c :: r)
  | [] => some (0, [])

/-- Parse a JSON number (optional minus, integer part without leading
zeros, optional fraction, optional exponent) as an exact rational. -/
def parseNumber (cs : List Char) : Option (ℚ × List Char) :=
  let (neg, cs1) : Bool × List Char :=
    match cs with
    | '-' :: r => (true, r)
    | _ => (false, cs)
  match takeDigits cs1 with
  | ([], _) => none
  | (ids, cs2) =>
    if 1 < ids.length ∧ ids.head? = some 0 then none
    else
      match parseFrac cs2 with
      | none => none
      | some (f, cs3) =>
        match parseExp cs3 with
        | none => none
        | some (ex, cs4) =>
          let mag : ℚ := ((natOfDigits ids : ℚ) + f) * (10 : ℚ) ^ ex
          some (if neg then -mag else mag, cs4)

mutual

/-- Parse one JSON value. -/
def parseValue : Nat → List Char → Option (Json × List Char)
  | 0, _ => none
  | fuel + 1, cs =>
    match skipWs cs with
    | [] => none
    | c :: rest =>
      if c = '"' then
        match parseStringBody (fuel + 1) rest with
        | some (s, r) => some (.jstr s, r)
        | none => none
      else if c = '{' then
        match skipWs rest with
        | '}' :: r => some (.jobj [], r)
        | other =>
          match parseMembers fuel other with
          | some (ms, r) => some (.jobj ms, r)
          | none => none
      else if c = '[' then
        match skipWs rest with
        | ']' :: r => some (.jarr [], r)
        | other =>
          match parseElems fuel other with
          | some (xs, r) => some (.jarr xs, r)
          | none => none
      else if c = 't' then
        match rest with
        | 'r' :: 'u' :: 'e' :: r => some (.jbool true, r)
        | _ => none
      else if c = 'f' then
        match rest with
        | 'a' :: 'l' :: 's' :: 'e' :: r => some (.jbool false, r)
        | _ => none
      else if c = 'n' then
        match rest with
        | 'u' :: 'l' :: 'l' :: r => some (.jnull, r)
        | _ => none
      else
        match parseNumber (c :: rest) with
        | some (q, r) => some (.jnum q, r)
        | none => none

/-- Parse a non-empty comma-separated member list of an object, up to and
including the closing brace. -/
def parseMembers : Nat → List Char → Option (List (String × Json) × List Char)
  | 0, _ => none
  | fuel + 1, cs =>
    match skipWs cs with
    | '"' :: r =>
      match parseStringBody (fuel + 1) r with
      | some (k, r1) =>
        match skipWs r1 with
        | ':' :: r2 =>
          match parseValue fuel r2 with
          | some (v, r3) =>
            match skipWs r3 with
            | ',' :: r4 =>
              match parseMembers fuel r4 with
              | some (ms, r5) => some ((k, v) :: ms, r5)
              | none => none
            | '}' :: r4 => some ([(k, v)], r4)
            | _ => none
          | none => none
        | _ => none
      | none => none
    | _ => none

/-- Parse a non-empty comma-separated element list of an array, up to and
including the closing bracket. -/
def parseElems : Nat → List Char → Option (List Json × List Char)
  | 0, _ => none
  | fuel + 1, cs =>
    match parseValue fuel cs with
    | some (v, r) =>
      match skipWs r with
      | ',' :: r1 =>
        match parseElems fuel r1 with
        | some (xs, r2) => some (v :: xs, r2)
        | none => none
      | ']' :: r1 => some ([v], r1)
      | _ => none
    | none => none

end

/-- `JSON.parse`: parse the whole string as one JSON value, rejecting
trailing garbage.  Returns `none` where `JSON.parse` would throw. -/
def parseJson (s : String) : Option Json :=
  match parseValue (s.length + 2) s.data with
  | some (j, rest) => if skipWs rest = [] then some j else none
  | none => none

/-! ### The error-message extraction and the submission step -/

/-- JavaScript truthiness of a JSON value (`0`, `""`, `null`, `false` are
falsy; objects and arrays are truthy), used to model
`errorJson.detail || errorMessage` at line 93. -/
def jsTruthy : Json → Bool
  | .jnull => false
  | .jbool b => b
  | .jnum q => decide (q ≠ 0)
  | .jstr s => !s.isEmpty
  | .jarr _ => true
  | .jobj _ => true

mutual

/-- The string the `Error` constructor would make of a non-undefined
message value.  Only the string case is exercised by the repository's
contract; the rendering of numbers is an approximation (JavaScript prints
`2.5` where `toString (5/2 : ℚ)` prints `5/2`), never relied upon by a
theorem below. -/
def jsToMessageString : Json → String
  | .jstr s => s
  | .jbool true => "true"
  | .jbool false => "false"
  | .jnull => "null"
  | .jnum q => toString q
  | .jarr xs => jsToMessageList xs
  | .jobj _ => "[object Object]"

/-- Comma-joined rendering of an array's elements, as `Array.toString`
would produce. -/
def jsToMessageList : List Json → String
  | [] => ""
  | [x] => jsToMessageString x
  | x :: xs => jsToMessageString x ++ "," ++ jsToMessageList xs

end

/-- The error-message computation of the non-ok branch (source lines
87–97): start from the default `'Failed to generate video'`, try
`JSON.parse` on the body text; on success replace the default with the
`detail` field when that field is truthy; on parse failure use the raw
body text. -/
def extractErrorMessage (errorText : String) : String :=
  let errorMessage := "Failed to generate video"
  match parseJson errorText with
  | some errorJson =>
    match errorJson.getField "detail" with
    | some d => if jsTruthy d then jsToMessageString d else errorMessage
    | none => errorMessage
  | none => errorText

/-- JavaScript falsiness of `import.meta.env.VITE_BACKEND_URL`
(line 39's `!backendUrl`): true when the variable is undefined or the
empty string. -/
def falsyUrl : Option String → Bool
  | none => true
  | some s => s.isEmpty

/-- Outcome of the `fetch` call: either the promise rejects (a network
failure, a `TypeError` carrying a message), or a response arrives with a
status code and a body text. -/
inductive FetchOutcome where
  | netError : String → FetchOutcome
  | response : Nat → String → FetchOutcome

/-- The environment of one submission: the build-time configuration and
the behaviour of the platform's asynchronous primitives.
`jsonErrorMsg` is the message of the `SyntaxError` that
`response.json ()` would throw on a non-JSON success body. -/
structure SubmitEnv where
  backendUrl : Option String
  fileReadFails : Bool
  jsonErrorMsg : String
  fetch : FetchOutcome

/-- A network request as issued by the `fetch` call: URL, method, and the
payload object that is `JSON.stringify`-ed into the body. -/
structure Request where
  url : String
  method : String
  body : Json

/-- The payload object of lines 46–73: the six base fields in literal
order, then `image_url` (URL method) or `image_base64` (file method with
a chosen file, whose read succeeded), then `seed` when non-null. -/
def buildPayload (s : FormState) : Json :=
  let base := [("prompt", Json.jstr s.prompt),
               ("inference_steps", Json.jnum (s.inferenceSteps : ℚ)),
               ("guidance_scale", Json.jnum s.guidanceScale),
               ("width", Json.jnum (s.width : ℚ)),
               ("height", Json.jnum (s.height : ℚ)),
               ("num_frames", Json.jnum (s.numFrames : ℚ))]
  let withImage :=
    match s.inputMethod, s.imageFile with
    | .url, _ => base ++ [("image_url", Json.jstr s.imageUrl)]
    | .file, some dataUrl => base ++ [("image_base64", Json.jstr dataUrl)]
    | .file, none => base
  let withSeed :=
    match s.seed with
    | some n => withImage ++ [("seed", Json.jnum (n : ℚ))]
    | none => withImage
  Json.jobj withSeed

/-- One run of `handleSubmit` (lines 31–107): set `loading`, clear
`error`, then run the try block — validation, configuration check, file
read, payload build, fetch, response handling — with the catch assigning
`error` and the finally block clearing `loading`.  Returns the final
component state together with the list of network requests issued. -/
def handleSubmit (s₀ : FormState) (env : SubmitEnv) : FormState × List Request :=
  let s := { s₀ with loading := true, error := none }
  let settle := fun (s' : FormState) (reqs : List Request) =>
    ({ s' with loading := false }, reqs)
  match validateDimensions s with
  | some msg => settle { s with error := some msg } []
  | none =>
    if falsyUrl env.backendUrl then
      let msg := "Backend URL is not configured. Please check your environment variables."
      settle { s with error := some msg } []
    else
      let backendUrl := env.backendUrl.getD ""
      if s.inputMethod = .file ∧ s.imageFile.isSome ∧ env.fileReadFails then
        -- the FileReader onerror handler rejects with a non-Error event,
        -- so the catch takes the instanceof fallback branch
        settle { s with error := some "An unknown error occurred" } []
      else
        let req : Request := ⟨backendUrl ++ "/generate-video", "POST", buildPayload s⟩
        match env.fetch with
        | .netError msg => settle { s with error := some msg } [req]
        | .response status body =>
          if 200 ≤ status ∧ status ≤ 299 then
            match parseJson body with
            | some j => settle { s with result := some j } [req]
            | none => settle { s with error := some env.jsonErrorMsg } [req]
          else
            settle { s with error := some (extractErrorMessage body) } [req]

/-! ### Concrete fixtures

The rationals are written as explicit `Rat` constructors so that the
kernel can evaluate the comparisons of `validateDimensions` on them
(`Rat` arithmetic such as `15 / 2` is defined through `Nat.gcd`, which
does not reduce definitionally). -/

/-- The rational 7.5, the default guidance scale. -/
def sevenPointFive : ℚ := ⟨15, 2, by norm_num, by norm_num⟩

/-- The rational -0.1, the failing guidance-scale boundary probe. -/
def negPointOne : ℚ := ⟨-1, 10, by norm_num, by
  show Nat.Coprime 1 10
  exact Nat.coprime_one_left 10⟩

/-- A parameter set passing every validation check: the spec's example
submission (width 704, height 480, 161 frames, 50 steps, guidance
scale 7.5, prompt `"a cat"`, URL input method), idle UI state. -/
def okState : FormState where
  prompt := "a cat"
  imageUrl := "http://x/y.jpg"
  imageFile := none
  seed := none
  inferenceSteps := 50
  guidanceScale := sevenPointFive
  width := 704
  height := 480
  numFrames := 161
  loading := false
  result := none
  error := none
  inputMethod := .url

/-- A benign environment: configured backend URL, working file reader, a
gateway answering 200 with the JSON body `null`. -/
def baseEnv : SubmitEnv where
  backendUrl := some "http://b"
  fileReadFails := false
  jsonErrorMsg := "Unexpected end of JSON input"
  fetch := .response 200 "null"

/-! ### Helper lemmas -/

/-- `validateDimensions` reads none of the UI-state fields, so mutating
`loading` and `error` at the top of `handleSubmit` does not affect it. -/
theorem validateDimensions_ui_irrel (s : FormState) :
    validateDimensions { s with loading := true, error := none } =
      validateDimensions s := rfl

/-- Characterisation of a passing validation in terms of the data-model
constraints of the spec. -/
theorem validateDimensions_eq_none_iff (s : FormState) :
    validateDimensions s = none ↔
      ((32 : Int) ∣ s.width ∧ (32 : Int) ∣ s.height ∧
        (8 : Int) ∣ (s.numFrames - 1) ∧ 1 ≤ s.inferenceSteps ∧
        0 ≤ s.guidanceScale) := by
  have hw : Int.tmod s.width 32 = 0 ↔ (32 : Int) ∣ s.width :=
    ⟨Int.dvd_of_tmod_eq_zero, Int.tmod_eq_zero_of_dvd⟩
  have hh : Int.tmod s.height 32 = 0 ↔ (32 : Int) ∣ s.height :=
    ⟨Int.dvd_of_tmod_eq_zero, Int.tmod_eq_zero_of_dvd⟩
  have hf : Int.tmod (s.numFrames - 1) 8 = 0 ↔ (8 : Int) ∣ (s.numFrames - 1) :=
    ⟨Int.dvd_of_tmod_eq_zero, Int.tmod_eq_zero_of_dvd⟩
  unfold validateDimensions
  split_ifs with h1 h2 h3 h4
  · refine iff_of_false (by simp) ?_
    rintro ⟨hwd, hhd, -, -, -⟩
    rcases h1 with h | h
    · exact h (hw.mpr hwd)
    · exact h (hh.mpr hhd)
  · refine iff_of_false (by simp) ?_
    rintro ⟨-, -, hfd, -, -⟩
    exact h2 (hf.mpr hfd)
  · refine iff_of_false (by simp) ?_
    rintro ⟨-, -, -, hst, -⟩
    omega
  · refine iff_of_false (by simp) ?_
    rintro ⟨-, -, -, -, hg⟩
    linarith
  · refine iff_of_true rfl ?_
    push_neg at h1 h2 h3 h4
    exact ⟨hw.mp h1.1, hh.mp h1.2, hf.mp h2, h3, h4⟩

/-- `buildPayload` reads none of the UI-state fields. -/
theorem buildPayload_ui_irrel (s : FormState) :
    buildPayload { s with loading := true, error := none } = buildPayload s := rfl

/-- The payload carries an `image_url` key exactly for the URL input
method. -/
theorem buildPayload_hasField_image_url (s : FormState) :
    (buildPayload s).hasField "image_url" = decide (s.inputMethod = .url) := by
  obtain ⟨p, iu, f, sd, st, g, w, h, nf, l, r, e, m⟩ := s
  cases m <;> cases f <;> cases sd <;> rfl

/-- The payload carries an `image_base64` key exactly for the file input
method with a chosen file. -/
theorem buildPayload_hasField_image_base64 (s : FormState) :
    (buildPayload s).hasField "image_base64" =
      (decide (s.inputMethod = .file) && s.imageFile.isSome) := by
  obtain ⟨p, iu, f, sd, st, g, w, h, nf, l, r, e, m⟩ := s
  cases m <;> cases f <;> cases sd <;> rfl

/-- The payload carries a `seed` key exactly when the seed is non-null. -/
theorem buildPayload_hasField_seed (s : FormState) :
    (buildPayload s).hasField "seed" = s.seed.isSome := by
  obtain ⟨p, iu, f, sd, st, g, w, h, nf, l, r, e, m⟩ := s
  cases m <;> cases f <;> cases sd <;> rfl

/-- Every request a submission issues goes to the configured endpoint by
POST and carries the payload built from the submitted parameters. -/
theorem handleSubmit_requests (s : FormState) (env : SubmitEnv) (r : Request)
    (hr : r ∈ (handleSubmit s env).2) :
    r.url = env.backendUrl.getD "" ++ "/generate-video" ∧ r.method = "POST" ∧
      r.body = buildPayload s := by
  simp only [handleSubmit] at hr
  repeat' split at hr
  all_goals
    first
      | (rw [List.mem_singleton] at hr; subst hr; exact ⟨rfl, rfl, rfl⟩)
      | cases hr

/-- Every submission settles with either a clean error field or an
untouched result field. -/
theorem handleSubmit_error_or_frame (s : FormState) (env : SubmitEnv) :
    (handleSubmit s env).1.error = none ∨
      (handleSubmit s env).1.result = s.result := by
  simp only [handleSubmit]
  repeat' split
  all_goals first | exact Or.inl rfl | exact Or.inr rfl

end VideoGen

open VideoGen

example : parseJson "null" = some .jnull := by rfl
example : parseJson "server exploded" = none := by rfl
example : parseJson "\x7b\"detail\":\"oom\"\x7d" =
    some (.jobj [("detail", .jstr "oom")]) := by rfl

/-! ### Concrete request fixtures -/

/-- The request `handleSubmit` issues from `okState` in `baseEnv`: the
spec's worked example payload (guidance scale 7.5 = 15/2), with no
`seed` key and the URL image source. -/
def okRequest : Request :=
  ⟨"http://b/generate-video", "POST",
    Json.jobj [("prompt", Json.jstr "a cat"),
               ("inference_steps", Json.jnum 50),
               ("guidance_scale", Json.jnum sevenPointFive),
               ("width", Json.jnum 704),
               ("height", Json.jnum 480),
               ("num_frames", Json.jnum 161),
               ("image_url", Json.jstr "http://x/y.jpg")]⟩

/-- `okState` switched to the file input method with a chosen file. -/
def fileState : FormState :=
  { okState with inputMethod := .file,
                 imageFile := some "data:image/jpeg;base64,AAAA" }

/-- The request `handleSubmit` issues from `fileState` in `baseEnv`:
`image_base64` replaces `image_url`. -/
def fileRequest : Request :=
  ⟨"http://b/generate-video", "POST",
    Json.jobj [("prompt", Json.jstr "a cat"),
               ("inference_steps", Json.jnum 50),
               ("guidance_scale", Json.jnum sevenPointFive),
               ("width", Json.jnum 704),
               ("height", Json.jnum 480),
               ("num_frames", Json.jnum 161),
               ("image_base64", Json.jstr "data:image/jpeg;base64,AAAA")]⟩

/-! ### Claims -/

/-- C1: `validateDimensions` fails exactly when width or height is not
divisible by 32, or `numFrames - 1` is not divisible by 8, or
`inferenceSteps < 1`, or `guidanceScale < 0`; at the boundaries,
`inferenceSteps = 0` fails while `1` passes, and `guidanceScale = -0.1`
fails while `0` passes. -/
theorem C1_validateDimensions_fails_iff :
    (∀ s : FormState, (validateDimensions s).isSome = true ↔
        (¬(32 : Int) ∣ s.width ∨ ¬(32 : Int) ∣ s.height ∨
          ¬(8 : Int) ∣ (s.numFrames - 1) ∨ s.inferenceSteps < 1 ∨
          s.guidanceScale < 0))
    ∧ (validateDimensions { okState with inferenceSteps := 0 }).isSome = true
    ∧ validateDimensions { okState with inferenceSteps := 1 } = none
    ∧ (validateDimensions { okState with guidanceScale := negPointOne }).isSome = true
    ∧ validateDimensions { okState with guidanceScale := 0 } = none := by
  refine ⟨fun s => ?_, by decide, by decide, by decide, by decide⟩
  rw [← Option.ne_none_iff_isSome]
  simp only [Ne, validateDimensions_eq_none_iff, not_and_or, not_le]

/-- C2: a submission whose parameters fail validation issues no network
request at all — the first failing check aborts before the fetch. -/
theorem C2_validation_failure_no_network (s : FormState) (env : SubmitEnv)
    (h : validateDimensions s ≠ none) :
    (handleSubmit s env).2 = [] := by
  obtain ⟨msg, hmsg⟩ := Option.ne_none_iff_exists'.mp h
  have hv : validateDimensions { s with loading := true, error := none } = some msg := hmsg
  simp [handleSubmit, hv]

/-- Witness for C2 at width 33 (not divisible by 32). -/
theorem C2_validation_failure_no_network_witness :
    (handleSubmit { okState with width := 33 } baseEnv).2 = [] :=
  C2_validation_failure_no_network { okState with width := 33 } baseEnv (by decide)

/-- C3: on a non-success HTTP status the displayed message is the
response's `detail` field when the body parses as JSON (and carries a
non-empty string `detail`), and the raw body text when parsing fails;
for status 500 with body `{"detail":"oom"}` the message is exactly
`"oom"`, and for status 500 with body `server exploded` it is exactly
`"server exploded"`. -/
theorem C3_error_message_extraction :
    (∀ (s : FormState) (env : SubmitEnv) (status : Nat) (body : String),
        validateDimensions s = none → falsyUrl env.backendUrl = false →
        ¬(s.inputMethod = .file ∧ s.imageFile.isSome = true ∧ env.fileReadFails = true) →
        env.fetch = .response status body → ¬(200 ≤ status ∧ status ≤ 299) →
        (handleSubmit s env).1.error = some (extractErrorMessage body))
    ∧ (∀ body : String, parseJson body = none → extractErrorMessage body = body)
    ∧ (∀ (body : String) (j : Json) (d : String),
        parseJson body = some j → j.getField "detail" = some (Json.jstr d) →
        d ≠ "" → extractErrorMessage body = d)
    ∧ (handleSubmit okState
        { baseEnv with fetch := .response 500 "\x7b\"detail\":\"oom\"\x7d" }).1.error =
        some "oom"
    ∧ (handleSubmit okState
        { baseEnv with fetch := .response 500 "server exploded" }).1.error =
        some "server exploded" := by
  refine ⟨?_, ?_, ?_, by decide, by decide⟩
  · intro s env status body hval hurl hfile hfetch hstatus
    have hv : validateDimensions { s with loading := true, error := none } = none := hval
    simp [handleSubmit, hv, hurl, hfile, hfetch, hstatus]
  · intro body h
    unfold extractErrorMessage
    rw [h]
  · intro body j d hp hd hne
    have hde : d.isEmpty = false := by
      cases hdd : d.isEmpty
      · rfl
      · exact absurd ((String.isEmpty_iff d).mp hdd) hne
    simp [extractErrorMessage, hp, hd, jsTruthy, jsToMessageString, hde]

/-- Witness for C3: the general conjuncts applied at a 404 body, at the
non-JSON body, and at the `detail` object. -/
theorem C3_error_message_extraction_witness :
    (handleSubmit okState { baseEnv with fetch := .response 404 "nope" }).1.error =
        some (extractErrorMessage "nope")
    ∧ extractErrorMessage "server exploded" = "server exploded"
    ∧ extractErrorMessage "\x7b\"detail\":\"oom\"\x7d" = "oom" :=
  ⟨C3_error_message_extraction.1 okState _ 404 "nope" (by decide) rfl (by decide)
      rfl (by decide),
   C3_error_message_extraction.2.1 "server exploded" rfl,
   C3_error_message_extraction.2.2.1 _ (Json.jobj [("detail", Json.jstr "oom")])
      "oom" rfl rfl (by decide)⟩

/-- C4: the emitted payload carries `seed` exactly when the seed is
non-null and `image_url`/`image_base64` according to the input method;
for the spec's worked example (width 704, height 480, 161 frames, 50
steps, guidance 7.5, prompt "a cat", URL method, seed unset) validation
passes and the emitted body is exactly the seven-field object of
`okRequest`, with no `seed` key. -/
theorem C4_payload_construction :
    (∀ (s : FormState) (env : SubmitEnv) (r : Request),
        r ∈ (handleSubmit s env).2 →
        r.body.hasField "seed" = s.seed.isSome ∧
        r.body.hasField "image_url" = decide (s.inputMethod = .url) ∧
        r.body.hasField "image_base64" =
          (decide (s.inputMethod = .file) && s.imageFile.isSome))
    ∧ validateDimensions okState = none
    ∧ (handleSubmit okState baseEnv).2 = [okRequest] := by
  refine ⟨?_, by decide, by rfl⟩
  intro s env r hr
  obtain ⟨-, -, hbody⟩ := handleSubmit_requests s env r hr
  rw [hbody, buildPayload_hasField_seed, buildPayload_hasField_image_url,
    buildPayload_hasField_image_base64]
  exact ⟨rfl, rfl, rfl⟩

/-- Witness for C4: the field-presence conjunct applied to the concrete
emitted request. -/
theorem C4_payload_construction_witness :
    okRequest.body.hasField "seed" = okState.seed.isSome ∧
    okRequest.body.hasField "image_url" = decide (okState.inputMethod = .url) ∧
    okRequest.body.hasField "image_base64" =
      (decide (okState.inputMethod = .file) && okState.imageFile.isSome) :=
  C4_payload_construction.1 okState baseEnv okRequest
    (List.mem_singleton_self okRequest)

/-- C5: the loading flag is cleared on every exit path of a submission —
success, validation failure, configuration failure, file-read failure,
network failure and error responses alike (the finally block). -/
theorem C5_loading_always_cleared (s : FormState) (env : SubmitEnv) :
    (handleSubmit s env).1.loading = false := by
  simp only [handleSubmit]
  repeat' split
  all_goals rfl

/-- C6 counterexample: with the file input method selected and no file
chosen, the submission still issues its request, and the emitted payload
has neither `image_url` nor `image_base64` — refuting "never neither". -/
theorem C6_cex_file_method_without_file :
    ((handleSubmit { okState with inputMethod := InputMethod.file, imageFile := none }
        baseEnv).2.map
      fun r => (r.body.hasField "image_url", r.body.hasField "image_base64")) =
    [(false, false)] := by rfl

/-- C6 amended: the emitted payload never carries both image-source
fields; it carries exactly `image_url` for the URL method and exactly
`image_base64` for the file method with a chosen file, but carries
neither when the file method is selected with no file chosen. -/
theorem C6_image_source_fields (s : FormState) (env : SubmitEnv) (r : Request)
    (hr : r ∈ (handleSubmit s env).2) :
    ¬(r.body.hasField "image_url" = true ∧ r.body.hasField "image_base64" = true)
    ∧ (s.inputMethod = .url →
        r.body.hasField "image_url" = true ∧ r.body.hasField "image_base64" = false)
    ∧ (s.inputMethod = .file → s.imageFile.isSome = true →
        r.body.hasField "image_url" = false ∧ r.body.hasField "image_base64" = true)
    ∧ (s.inputMethod = .file → s.imageFile = none →
        r.body.hasField "image_url" = false ∧
          r.body.hasField "image_base64" = false) := by
  obtain ⟨-, -, hbody⟩ := handleSubmit_requests s env r hr
  rw [hbody, buildPayload_hasField_image_url, buildPayload_hasField_image_base64]
  refine ⟨?_, ?_, ?_, ?_⟩
  · rintro ⟨h1, h2⟩
    simp only [decide_eq_true_eq] at h1
    simp only [Bool.and_eq_true, decide_eq_true_eq] at h2
    rw [h1] at h2
    exact InputMethod.noConfusion h2.1
  · intro hm
    simp [hm]
  · intro hm hf
    simp [hm, hf]
  · intro hm hf
    simp [hm, hf]

/-- Witness for C6's amended theorem at the file-method submission. -/
theorem C6_image_source_fields_witness :
    ¬(fileRequest.body.hasField "image_url" = true ∧
        fileRequest.body.hasField "image_base64" = true)
    ∧ (fileState.inputMethod = .url →
        fileRequest.body.hasField "image_url" = true ∧
          fileRequest.body.hasField "image_base64" = false)
    ∧ (fileState.inputMethod = .file → fileState.imageFile.isSome = true →
        fileRequest.body.hasField "image_url" = false ∧
          fileRequest.body.hasField "image_base64" = true)
    ∧ (fileState.inputMethod = .file → fileState.imageFile = none →
        fileRequest.body.hasField "image_url" = false ∧
          fileRequest.body.hasField "image_base64" = false) :=
  C6_image_source_fields fileState baseEnv fileRequest
    (List.mem_singleton_self fileRequest)

/-- C7: an absent (or empty) backend URL is a hard failure at submission
time: the configuration message is surfaced through the same error field
as a validation error, no fetch is issued, and loading is cleared. -/
theorem C7_missing_backend_url_hard_failure (s : FormState) (env : SubmitEnv)
    (hval : validateDimensions s = none) (hurl : falsyUrl env.backendUrl = true) :
    (handleSubmit s env).1.error =
        some "Backend URL is not configured. Please check your environment variables."
    ∧ (handleSubmit s env).2 = [] ∧ (handleSubmit s env).1.loading = false := by
  have hv : validateDimensions { s with loading := true, error := none } = none := hval
  simp [handleSubmit, hv, hurl]

/-- Witness for C7 with the backend URL undefined. -/
theorem C7_missing_backend_url_hard_failure_witness :
    (handleSubmit okState { baseEnv with backendUrl := none }).1.error =
        some "Backend URL is not configured. Please check your environment variables."
    ∧ (handleSubmit okState { baseEnv with backendUrl := none }).2 = []
    ∧ (handleSubmit okState { baseEnv with backendUrl := none }).1.loading = false :=
  C7_missing_backend_url_hard_failure okState _ (by decide) rfl

/-- C8 counterexample: starting from a state holding the result of an
earlier successful submission, a submission failing validation settles
with BOTH a non-null error and the retained non-null result — both UI
blocks render, refuting mutual exclusion. -/
theorem C8_cex_error_and_result_both_shown :
    (handleSubmit { okState with result := some (Json.jstr "ok"), width := 33 }
        baseEnv).1.error.isSome = true
    ∧ (handleSubmit { okState with result := some (Json.jstr "ok"), width := 33 }
        baseEnv).1.result.isSome = true :=
  ⟨by decide, by decide⟩

/-- C8 amended: a single submission never sets both fields — whenever the
result field was null when the submission started, error and result are
not both non-null after it settles (a failed submission retains a
previous result, so exclusion holds only from a result-free start). -/
theorem C8_error_result_exclusive_from_idle (s : FormState) (env : SubmitEnv)
    (hres : s.result = none) :
    ¬((handleSubmit s env).1.error.isSome = true ∧
      (handleSubmit s env).1.result.isSome = true) := by
  rintro ⟨herr, hresult⟩
  rcases handleSubmit_error_or_frame s env with h | h
  · rw [h] at herr
    simp at herr
  · rw [h, hres] at hresult
    simp at hresult

/-- Witness for C8's amended theorem from the idle state. -/
theorem C8_error_result_exclusive_from_idle_witness :
    ¬((handleSubmit okState baseEnv).1.error.isSome = true ∧
      (handleSubmit okState baseEnv).1.result.isSome = true) :=
  C8_error_result_exclusive_from_idle okState baseEnv rfl

/-- C9: validation depends only on width, height, numFrames,
inferenceSteps and guidanceScale — two states agreeing there validate
identically (same message), and blanking prompt and image URL never
changes the outcome. -/
theorem C9_validation_noninterference :
    (∀ s s' : FormState, s.width = s'.width → s.height = s'.height →
        s.numFrames = s'.numFrames → s.inferenceSteps = s'.inferenceSteps →
        s.guidanceScale = s'.guidanceScale →
        validateDimensions s = validateDimensions s')
    ∧ ∀ s : FormState,
        validateDimensions { s with prompt := "", imageUrl := "" } =
          validateDimensions s := by
  refine ⟨?_, fun s => rfl⟩
  intro s s' h1 h2 h3 h4 h5
  unfold validateDimensions
  rw [h1, h2, h3, h4, h5]

/-- Witness for C9: an empty prompt, empty URL, a chosen file and a seed
leave validation unchanged. -/
theorem C9_validation_noninterference_witness :
    validateDimensions
        { okState with
          prompt := "", imageUrl := "",
          imageFile := some "x", seed := some 123 } =
      validateDimensions okState :=
  C9_validation_noninterference.1 _ okState rfl rfl rfl rfl rfl

/-- C10: every submission clears the previous error before anything else
(the outcome is independent of the incoming error field), and every
error path leaves the stored result exactly as it was before the
submission started. -/
theorem C10_error_cleared_result_preserved :
    (∀ (s : FormState) (env : SubmitEnv) (e : Option String),
        handleSubmit { s with error := e } env = handleSubmit s env)
    ∧ ∀ (s : FormState) (env : SubmitEnv),
        (handleSubmit s env).1.error.isSome = true →
          (handleSubmit s env).1.result = s.result := by
  constructor
  · intro s env e
    rfl
  · intro s env herr
    rcases handleSubmit_error_or_frame s env with h | h
    · rw [h] at herr
      simp at herr
    · exact h

/-- Witness for C10: a failed submission (width 33) leaves the previous
result (none) untouched. -/
theorem C10_error_cleared_result_preserved_witness :
    (handleSubmit { okState with width := 33 } baseEnv).1.result = none :=
  C10_error_cleared_result_preserved.2 { okState with width := 33 } baseEnv
    (by decide)
